import Mathlib

/-!
# Verification of the kubernetes-backend-server deploy service

A shallow embedding, in Lean 4, of the core logic of `src/server.js` (the
image-deploy variant) and of the build-capable variant shipped alongside it:

* the resource builders (Deployment / Service / Ingress desired-state documents),
* the convergence routine `createOrUpdateDeployment` (replace, fall back to
  create on a 404 from the resource store, propagate every other error),
* the `POST /deploy` handler (validation, job-id generation, log broadcasting),
* the `GET /status/:jobId` handler (job-id parsing and the replica-counter
  state machine), and
* the WebSocket broadcast channel (`broadcastLog`, subscribe / unsubscribe).

The resource store (the Kubernetes API) is an external collaborator; it is
modelled abstractly as a record of state-passing operations (`StoreModel`),
with an honest in-memory instantiation (`honestModel`) and a fault-injecting
one (`faultyModel`) used to exercise the error paths.
-/

namespace DeployService

/-! ## Desired-state documents (resource builders)

These structures mirror, field for field, the object literals constructed
inside `createOrUpdateDeployment` in `src/server.js`.
-/

/-- Target namespace, `process.env.NAMESPACE || 'default'`, modelled at its
default. -/
def NAMESPACE : String := "default"

structure ContainerPort where
  containerPort : Nat
  deriving DecidableEq, Repr

structure SecretRef where
  name : String
  deriving DecidableEq, Repr

structure Container where
  name : String
  image : String
  ports : List ContainerPort
  deriving DecidableEq, Repr

structure PodSpec where
  containers : List Container
  imagePullSecrets : List SecretRef
  deriving DecidableEq, Repr

structure TemplateMetadata where
  labels : List (String × String)
  deriving DecidableEq, Repr

structure PodTemplate where
  metadata : TemplateMetadata
  spec : PodSpec
  deriving DecidableEq, Repr

structure LabelSelector where
  matchLabels : List (String × String)
  deriving DecidableEq, Repr

structure ObjectMeta where
  name : String
  ns : String
  annotations : List (String × String) := []
  deriving DecidableEq, Repr

structure DeploymentSpec where
  replicas : Nat
  selector : LabelSelector
  template : PodTemplate
  deriving DecidableEq, Repr

structure Deployment where
  apiVersion : String
  kind : String
  metadata : ObjectMeta
  spec : DeploymentSpec
  deriving DecidableEq, Repr

structure ServicePort where
  port : Nat
  targetPort : Nat
  deriving DecidableEq, Repr

structure ServiceSpec where
  selector : List (String × String)
  ports : List ServicePort
  type : String
  deriving DecidableEq, Repr

structure Service where
  apiVersion : String
  kind : String
  metadata : ObjectMeta
  spec : ServiceSpec
  deriving DecidableEq, Repr

structure ServiceBackendPort where
  number : Nat
  deriving DecidableEq, Repr

structure IngressServiceBackend where
  name : String
  port : ServiceBackendPort
  deriving DecidableEq, Repr

structure IngressBackend where
  service : IngressServiceBackend
  deriving DecidableEq, Repr

structure HTTPIngressPath where
  path : String
  pathType : String
  backend : IngressBackend
  deriving DecidableEq, Repr

structure HTTPIngressRuleValue where
  paths : List HTTPIngressPath
  deriving DecidableEq, Repr

structure IngressRule where
  host : String
  http : HTTPIngressRuleValue
  deriving DecidableEq, Repr

structure IngressSpec where
  ingressClassName : String
  rules : List IngressRule
  deriving DecidableEq, Repr

structure Ingress where
  apiVersion : String
  kind : String
  metadata : ObjectMeta
  spec : IngressSpec
  deriving DecidableEq, Repr

/-- The validated parameter record passed to `createOrUpdateDeployment`
(`{ app_name, image_name, port, registry_auth, domain }` in `server.js`,
where `domain` is the already-resolved `appDomain`). -/
structure DeployParams where
  app_name : String
  image_name : String
  port : Nat
  registry_auth : String
  domain : String
  deriving DecidableEq, Repr

/-- The `deployment` object literal of `createOrUpdateDeployment`
(`server.js` lines 149–175). -/
def mkDeployment (p : DeployParams) : Deployment where
  apiVersion := "apps/v1"
  kind := "Deployment"
  metadata := { name := p.app_name, ns := NAMESPACE }
  spec :=
    { replicas := 1
      selector := { matchLabels := [("app", p.app_name)] }
      template :=
        { metadata := { labels := [("app", p.app_name)] }
          spec :=
            { containers :=
                [{ name := p.app_name
                   image := p.image_name
                   ports := [{ containerPort := p.port }] }]
              imagePullSecrets := [{ name := p.registry_auth }] } } }

/-- The `service` object literal of `createOrUpdateDeployment`
(`server.js` lines 188–203). -/
def mkService (p : DeployParams) : Service where
  apiVersion := "v1"
  kind := "Service"
  metadata := { name := p.app_name, ns := NAMESPACE }
  spec :=
    { selector := [("app", p.app_name)]
      ports := [{ port := 80, targetPort := p.port }]
      type := "ClusterIP" }

/-- The `ingress` object literal of `createOrUpdateDeployment`
(`server.js` lines 216–244). -/
def mkIngress (p : DeployParams) : Ingress where
  apiVersion := "networking.k8s.io/v1"
  kind := "Ingress"
  metadata :=
    { name := p.app_name ++ "-ingress"
      ns := NAMESPACE
      annotations := [("nginx.ingress.kubernetes.io/rewrite-target", "/")] }
  spec :=
    { ingressClassName := "nginx"
      rules :=
        [{ host := p.domain
           http :=
             { paths :=
                 [{ path := "/"
                    pathType := "Prefix"
                    backend :=
                      { service :=
                          { name := p.app_name
                            port := { number := 80 } } } }] } }] }

/-! ## The resource store -/

/-- An error surfaced by the Kubernetes client: the code inspects
`error.response?.statusCode` and re-throws `error.message`. -/
structure K8sError where
  statusCode : Nat
  message : String
  deriving DecidableEq, Repr

/-- One call issued to the resource store by the convergence routine. -/
inductive K8sCall where
  | replaceDeployment (name : String) (doc : Deployment)
  | createDeployment (doc : Deployment)
  | replaceService (name : String) (doc : Service)
  | createService (doc : Service)
  | replaceIngress (name : String) (doc : Ingress)
  | createIngress (doc : Ingress)
  deriving DecidableEq, Repr

/-- The resource-store interface used by `createOrUpdateDeployment`:
each operation transforms an abstract store state and either succeeds
or fails with a `K8sError` (a thrown client error in the JS source). -/
structure StoreModel (σ : Type) where
  replaceDeployment : String → Deployment → σ → σ × Except K8sError Unit
  createDeployment : Deployment → σ → σ × Except K8sError Unit
  replaceService : String → Service → σ → σ × Except K8sError Unit
  createService : Service → σ → σ × Except K8sError Unit
  replaceIngress : String → Ingress → σ → σ × Except K8sError Unit
  createIngress : Ingress → σ → σ × Except K8sError Unit

/-- One `try { replace } catch (e) { if (e.statusCode === 404) create else throw e }`
block of `createOrUpdateDeployment` (the pattern repeated verbatim at
`server.js` lines 177–185, 205–213 and 246–254).  Returns the store state,
the trace of calls issued, and the error thrown out of the block, if any. -/
def tryReplaceOrCreate {σ : Type} (repl crt : σ → σ × Except K8sError Unit)
    (rc cc : K8sCall) (s : σ) : σ × List K8sCall × Option K8sError :=
  match repl s with
  | (s1, .ok _) => (s1, [rc], none)
  | (s1, .error e) =>
    if e.statusCode = 404 then
      match crt s1 with
      | (s2, .ok _) => (s2, [rc, cc], none)
      | (s2, .error e2) => (s2, [rc, cc], some e2)
    else (s1, [rc], some e)

/-- The convergence routine `createOrUpdateDeployment` (`server.js`
lines 146–255): converge the
Deployment, then the Service, then the Ingress; a thrown (non-404) store
error aborts the remaining steps and propagates. -/
def createOrUpdateDeployment {σ : Type} (M : StoreModel σ) (p : DeployParams)
    (s : σ) : σ × List K8sCall × Option K8sError :=
  let deployment := mkDeployment p
  match tryReplaceOrCreate (M.replaceDeployment p.app_name deployment)
      (M.createDeployment deployment)
      (.replaceDeployment p.app_name deployment) (.createDeployment deployment) s with
  | (s1, tr1, some e) => (s1, tr1, some e)
  | (s1, tr1, none) =>
    let service := mkService p
    match tryReplaceOrCreate (M.replaceService p.app_name service)
        (M.createService service)
        (.replaceService p.app_name service) (.createService service) s1 with
    | (s2, tr2, some e) => (s2, tr1 ++ tr2, some e)
    | (s2, tr2, none) =>
      let ingress := mkIngress p
      match tryReplaceOrCreate (M.replaceIngress (p.app_name ++ "-ingress") ingress)
          (M.createIngress ingress)
          (.replaceIngress (p.app_name ++ "-ingress") ingress) (.createIngress ingress) s2 with
      | (s3, tr3, r) => (s3, tr1 ++ tr2 ++ tr3, r)

/-! ## An honest in-memory resource store

The cluster API is external to the repository; the spec treats it as "an
opaque resource store reached through a CRUD API".  `honestModel` gives it
the standard semantics: replace succeeds iff the named resource exists
(404 otherwise), create succeeds iff it does not (409 Conflict otherwise).
-/

/-- Look a named resource up in one kind's collection. -/
def lookupRes {α : Type} : List (String × α) → String → Option α
  | [], _ => none
  | (k, v) :: rest, n => if k = n then some v else lookupRes rest n

/-- Overwrite every entry named `n` with the document `d`. -/
def replaceRes {α : Type} (l : List (String × α)) (n : String) (d : α) :
    List (String × α) :=
  l.map (fun kv => if kv.1 = n then (kv.1, d) else kv)

/-- The state of the honest store: one collection per resource kind. -/
structure KStore where
  deployments : List (String × Deployment)
  services : List (String × Service)
  ingresses : List (String × Ingress)
  deriving DecidableEq, Repr

def emptyStore : KStore := ⟨[], [], []⟩

def honestReplace {α : Type} (n : String) (d : α) (l : List (String × α)) :
    List (String × α) × Except K8sError Unit :=
  if (lookupRes l n).isSome then (replaceRes l n d, .ok ())
  else (l, .error ⟨404, "Not Found"⟩)

def honestCreate {α : Type} (n : String) (d : α) (l : List (String × α)) :
    List (String × α) × Except K8sError Unit :=
  if (lookupRes l n).isSome then (l, .error ⟨409, "Conflict"⟩)
  else (l ++ [(n, d)], .ok ())

def honestModel : StoreModel KStore where
  replaceDeployment n d s :=
    let (l, r) := honestReplace n d s.deployments; ({ s with deployments := l }, r)
  createDeployment d s :=
    let (l, r) := honestCreate d.metadata.name d s.deployments
    ({ s with deployments := l }, r)
  replaceService n d s :=
    let (l, r) := honestReplace n d s.services; ({ s with services := l }, r)
  createService d s :=
    let (l, r) := honestCreate d.metadata.name d s.services
    ({ s with services := l }, r)
  replaceIngress n d s :=
    let (l, r) := honestReplace n d s.ingresses; ({ s with ingresses := l }, r)
  createIngress d s :=
    let (l, r) := honestCreate d.metadata.name d s.ingresses
    ({ s with ingresses := l }, r)

/-- The honest store with fault injection: `f c = some e` makes call `c`
fail with error `e` while leaving the store untouched (a rejected API
request); otherwise the honest semantics apply.  This exercises the error
paths (conflict, authorization, transient fault) the spec talks about. -/
def faultyModel (f : K8sCall → Option K8sError) : StoreModel KStore where
  replaceDeployment n d s :=
    match f (.replaceDeployment n d) with
    | some e => (s, .error e)
    | none => honestModel.replaceDeployment n d s
  createDeployment d s :=
    match f (.createDeployment d) with
    | some e => (s, .error e)
    | none => honestModel.createDeployment d s
  replaceService n d s :=
    match f (.replaceService n d) with
    | some e => (s, .error e)
    | none => honestModel.replaceService n d s
  createService d s :=
    match f (.createService d) with
    | some e => (s, .error e)
    | none => honestModel.createService d s
  replaceIngress n d s :=
    match f (.replaceIngress n d) with
    | some e => (s, .error e)
    | none => honestModel.replaceIngress n d s
  createIngress d s :=
    match f (.createIngress d) with
    | some e => (s, .error e)
    | none => honestModel.createIngress d s

/-- Classify a call by resource kind (Deployment calls). -/
def K8sCall.isDeploymentCall : K8sCall → Bool
  | .replaceDeployment _ _ => true
  | .createDeployment _ => true
  | _ => false

def K8sCall.isServiceCall : K8sCall → Bool
  | .replaceService _ _ => true
  | .createService _ => true
  | _ => false

def K8sCall.isIngressCall : K8sCall → Bool
  | .replaceIngress _ _ => true
  | .createIngress _ => true
  | _ => false

def K8sCall.isReplaceDeployment : K8sCall → Bool
  | .replaceDeployment _ _ => true
  | _ => false

def K8sCall.isCreateDeployment : K8sCall → Bool
  | .createDeployment _ => true
  | _ => false

/-! ## Log/event broadcast channel (`wss`, `broadcastLog`) -/

/-- One outbound event, the `logData` object of `broadcastLog`
(`server.js` lines 282–287).  The wall-clock timestamp is supplied as a
parameter. -/
structure LogEvent where
  job_id : String
  level : String
  message : String
  timestamp : Nat
  deriving DecidableEq, Repr

/-- One WebSocket connection: its open/closed transport state
(`readyState === WebSocket.OPEN`) and its `subscribedJobs` set, modelled
as a duplicate-free-by-use list.  `id` distinguishes connections. -/
structure Client where
  id : Nat
  readyState : Bool
  subscribedJobs : List String
  deriving DecidableEq, Repr

/-- A freshly connected client: `ws.subscribedJobs = new Set()`
(`server.js` line 260). -/
def wsNewClient (id : Nat) : Client := ⟨id, true, []⟩

/-- A parsed inbound control message `{ action, job_id }`. -/
structure WsMessage where
  action : String
  job_id : Option String
  deriving DecidableEq, Repr

/-- The `ws.on('message')` handler (`server.js` lines 262–275):
`subscribe` adds `job_id` to the connection's set, `unsubscribe` removes
it; any other message (and a missing or empty — falsy — `job_id`) is a
no-op on the subscription set. -/
def wsHandleMessage (c : Client) (m : WsMessage) : Client :=
  match m.job_id with
  | none => c
  | some j =>
    if j = "" then c
    else if m.action = "subscribe" then
      { c with subscribedJobs :=
          if c.subscribedJobs.contains j then c.subscribedJobs
          else c.subscribedJobs ++ [j] }
    else if m.action = "unsubscribe" then
      { c with subscribedJobs := c.subscribedJobs.filter (fun x => x ≠ j) }
    else c

/-- The fan-out `broadcastLog(jobId, level, message)` (`server.js`
lines 281–296): the event is sent to every client whose transport is open
and whose `subscribedJobs` contains `jobId`.  Returns the list of
(receiver, event) sends performed. -/
def broadcastLog (clients : List Client) (now : Nat)
    (jobId level message : String) : List (Client × LogEvent) :=
  let logData : LogEvent := ⟨jobId, level, message, now⟩
  (clients.filter
      (fun c => c.readyState && c.subscribedJobs.contains jobId)).map
    (fun c => (c, logData))

/-! ## The `POST /deploy` handler -/

/-- The raw JSON request body of `POST /deploy`; absent fields are `none`. -/
structure DeployReqBody where
  image_name : Option String := none
  app_name : Option String := none
  port : Option Nat := none
  registry_auth : Option String := none
  domain : Option String := none
  deriving DecidableEq, Repr

/-- JavaScript falsiness of an optional string: `undefined` and `''` are
falsy (`!image_name`, `domain || ...`). -/
def jsFalsyStr : Option String → Bool
  | none => true
  | some s => decide (s = "")

/-- The `POST /deploy` response body: either `{ error }` or
`{ job_id, status, domain, url }`. -/
inductive DeployRespBody where
  | err (error : String)
  | ok (job_id : String) (status : String) (domain : String) (url : String)
  deriving DecidableEq, Repr

/-- Everything observable about one run of the deploy handler: the HTTP
response, the final store state, the resource-store calls issued, and the
broadcast sends performed. -/
structure DeployOutcome (σ : Type) where
  statusCode : Nat
  body : DeployRespBody
  store : σ
  calls : List K8sCall
  sends : List (Client × LogEvent)

/-- The `POST /deploy` handler (`server.js` lines 25–62): validate, derive
`jobId` and `appDomain`, broadcast the start events, converge, and answer
200 on success or 500 (after a broadcast under the literal job id
`'error'`) when convergence throws.  `now` stands for `Date.now()`. -/
def deployHandler {σ : Type} (M : StoreModel σ) (clients : List Client)
    (now : Nat) (body : DeployReqBody) (s : σ) : DeployOutcome σ :=
  let port := body.port.getD 3000
  let registry_auth := body.registry_auth.getD "regcred"
  if jsFalsyStr body.image_name || jsFalsyStr body.app_name then
    ⟨400, .err "Missing required fields: image_name, app_name", s, [], []⟩
  else
    let an := body.app_name.getD ""
    let im := body.image_name.getD ""
    let jobId := an ++ "-" ++ Nat.repr now
    let appDomain :=
      if jsFalsyStr body.domain then an ++ ".0rca.live" else body.domain.getD ""
    let sends1 := broadcastLog clients now jobId "info"
      ("Starting deployment for " ++ an)
    let sends2 := broadcastLog clients now jobId "info" ("Image: " ++ im)
    let sends3 := broadcastLog clients now jobId "info" ("Domain: " ++ appDomain)
    match createOrUpdateDeployment M ⟨an, im, port, registry_auth, appDomain⟩ s with
    | (s1, calls, none) =>
      let sends4 := broadcastLog clients now jobId "success"
        ("Deployment created! App will be available at: http://" ++ appDomain)
      ⟨200, .ok jobId "completed" appDomain ("http://" ++ appDomain),
        s1, calls, sends1 ++ sends2 ++ sends3 ++ sends4⟩
    | (s1, calls, some e) =>
      let sendsE := broadcastLog clients now "error" "error"
        ("Deploy failed: " ++ e.message)
      ⟨500, .err e.message, s1, calls, sends1 ++ sends2 ++ sends3 ++ sendsE⟩

/-! ## The `GET /status/:jobId` handler -/

/-- Split a character list at every occurrence of `sep`, mirroring
JavaScript's `String.prototype.split` on a single-character separator. -/
def splitChar (sep : Char) : List Char → List (List Char)
  | [] => [[]]
  | c :: rest =>
    match splitChar sep rest with
    | [] => [[]]
    | g :: gs => if c = sep then [] :: g :: gs else (c :: g) :: gs

/-- The app-name extraction of the status handler:
`jobId.split('-')[0]` (`server.js` line 68). -/
def extractAppName (jobId : String) : String :=
  String.mk ((splitChar '-' jobId.data).headD [])

/-- Join segments back with hyphens (inverse direction of `splitChar`). -/
def joinHyphen : List (List Char) → List Char
  | [] => []
  | [g] => g
  | g :: gs => g ++ '-' :: joinHyphen gs

/-- The extraction the SPEC describes (for comparison with
`extractAppName`): the substring of `jobId` before the final
hyphen-delimited segment. -/
def specExtractAppName (jobId : String) : String :=
  String.mk (joinHyphen ((splitChar '-' jobId.data).dropLast))

/-- The live counters the Deployment-variant handler inspects:
`deployment.status.readyReplicas` and `deployment.status.replicas`,
either of which may be absent (`undefined`). -/
structure DeploymentK8sStatus where
  readyReplicas : Option Nat
  replicas : Option Nat
  deriving DecidableEq, Repr

/-- The status / phase / message triple computed at `server.js`
lines 74–86.  JavaScript's `undefined > 0` is `false` (hence `getD 0`)
and `undefined === 0` is `false` (hence `= some 0`). -/
def resolveDeploymentStatus (st : DeploymentK8sStatus) :
    String × String × String :=
  if st.readyReplicas.getD 0 > 0 then
    ("completed", "deployed", "Deployment successful")
  else if st.replicas = some 0 then
    ("failed", "failed", "Deployment failed")
  else
    ("running", "deploying", "Deployment in progress")

/-- Status endpoint response body. -/
inductive StatusRespBody where
  | ok (job_id : String) (status : String) (phase : String) (message : String)
  | err (error : String)
  deriving DecidableEq, Repr

/-- The `GET /status/:jobId` handler (`server.js` lines 65–101):
extract the app name from the job id, read the live Deployment under that
name, and map its counters to a status; a 404 from the store becomes
`Deployment not found`, any other error a 500. -/
def statusHandler (jobId : String)
    (readDeployment : String → Except K8sError DeploymentK8sStatus) :
    Nat × StatusRespBody :=
  let appName := extractAppName jobId
  match readDeployment appName with
  | .ok st =>
    let (status, phase, message) := resolveDeploymentStatus st
    (200, .ok jobId status phase message)
  | .error e =>
    if e.statusCode = 404 then (404, .err "Deployment not found")
    else (500, .err e.message)

/-- Live counters of a build Job (`job.status.succeeded` /
`job.status.failed`), for the build-capable variant's status handler. -/
structure JobK8sStatus where
  succeeded : Option Nat
  failed : Option Nat
  deriving DecidableEq, Repr

/-- The build-capable variant's counter logic: `succeeded > 0` wins,
then `failed > 0`, else running. -/
def resolveJobStatus (st : JobK8sStatus) : String × String × String :=
  if st.succeeded.getD 0 > 0 then
    ("completed", "deployed", "Build and deployment successful")
  else if st.failed.getD 0 > 0 then
    ("failed", "failed", "Build failed")
  else
    ("running", "building", "Build in progress")

/-- The build-capable variant's `GET /status/:jobId` handler: it reads the
Job named by the FULL `jobId` (no app-name extraction). -/
def statusHandlerJob (jobId : String)
    (readJob : String → Except K8sError JobK8sStatus) : Nat × StatusRespBody :=
  match readJob jobId with
  | .ok st =>
    let (status, phase, message) := resolveJobStatus st
    (200, .ok jobId status phase message)
  | .error e =>
    if e.statusCode = 404 then (404, .err "Job not found")
    else (500, .err e.message)

/-! ## Derived views used by the verification -/

/-- Deployment convergence block of `createOrUpdateDeployment`, as a
`tryReplaceOrCreate` instance. -/
def stepD {σ : Type} (M : StoreModel σ) (p : DeployParams) (s : σ) :
    σ × List K8sCall × Option K8sError :=
  tryReplaceOrCreate (M.replaceDeployment p.app_name (mkDeployment p))
    (M.createDeployment (mkDeployment p))
    (.replaceDeployment p.app_name (mkDeployment p))
    (.createDeployment (mkDeployment p)) s

/-- Service convergence block of `createOrUpdateDeployment`. -/
def stepS {σ : Type} (M : StoreModel σ) (p : DeployParams) (s : σ) :
    σ × List K8sCall × Option K8sError :=
  tryReplaceOrCreate (M.replaceService p.app_name (mkService p))
    (M.createService (mkService p))
    (.replaceService p.app_name (mkService p))
    (.createService (mkService p)) s

/-- Ingress convergence block of `createOrUpdateDeployment`. -/
def stepI {σ : Type} (M : StoreModel σ) (p : DeployParams) (s : σ) :
    σ × List K8sCall × Option K8sError :=
  tryReplaceOrCreate (M.replaceIngress (p.app_name ++ "-ingress") (mkIngress p))
    (M.createIngress (mkIngress p))
    (.replaceIngress (p.app_name ++ "-ingress") (mkIngress p))
    (.createIngress (mkIngress p)) s

/-- Net effect of one honest replace-or-create block on one kind's
collection: overwrite when present, append when absent. -/
def applyStep {α : Type} (l : List (String × α)) (n : String) (d : α) :
    List (String × α) :=
  if (lookupRes l n).isSome then replaceRes l n d else l ++ [(n, d)]

/-- Trace of one honest replace-or-create block: a bare (successful)
replace when the resource pre-exists, a 404-rejected replace followed by a
create when it does not. -/
def honestTraceFor (present : Bool) (rc cc : K8sCall) : List K8sCall :=
  if present then [rc] else [rc, cc]

/-- Check that a string is all decimal digits (the `<digits>` pattern). -/
def isDigitString (s : String) : Bool := s.data.all (·.isDigit)

/-- Parameter record induced by the §8 example request — image
`ghcr.io/u/r:latest`, app `demo`, port 4000 — with the registry secret
and domain at their defaults. -/
def demoParams : DeployParams :=
  ⟨"demo", "ghcr.io/u/r:latest", 4000, "regcred", "demo.0rca.live"⟩

/-- Raw request body of the §8 example request. -/
def demoReqBody : DeployReqBody :=
  { image_name := some "ghcr.io/u/r:latest", app_name := some "demo",
    port := some 4000 }

/-! ## Lemmas about one replace-or-create block -/

theorem troc_ok {σ : Type} {repl crt : σ → σ × Except K8sError Unit}
    {rc cc : K8sCall} {s s1 : σ} {u : Unit} (h : repl s = (s1, .ok u)) :
    tryReplaceOrCreate repl crt rc cc s = (s1, [rc], none) := by
  simp [tryReplaceOrCreate, h]

theorem troc_err404 {σ : Type} {repl crt : σ → σ × Except K8sError Unit}
    {rc cc : K8sCall} {s s1 : σ} {e : K8sError}
    (h : repl s = (s1, .error e)) (h4 : e.statusCode = 404) :
    tryReplaceOrCreate repl crt rc cc s =
      ((crt s1).1, [rc, cc],
        match (crt s1).2 with
        | .ok _ => none
        | .error e2 => some e2) := by
  rcases hc : crt s1 with ⟨s2, r2⟩
  cases r2 <;> simp [tryReplaceOrCreate, h, h4, hc]

theorem troc_errOther {σ : Type} {repl crt : σ → σ × Except K8sError Unit}
    {rc cc : K8sCall} {s s1 : σ} {e : K8sError}
    (h : repl s = (s1, .error e)) (h4 : e.statusCode ≠ 404) :
    tryReplaceOrCreate repl crt rc cc s = (s1, [rc], some e) := by
  simp [tryReplaceOrCreate, h, h4]

theorem troc_trace_shape {σ : Type} (repl crt : σ → σ × Except K8sError Unit)
    (rc cc : K8sCall) (s : σ) :
    (tryReplaceOrCreate repl crt rc cc s).2.1 = [rc] ∨
      (tryReplaceOrCreate repl crt rc cc s).2.1 = [rc, cc] := by
  rcases h : repl s with ⟨s1, r⟩
  cases r with
  | ok u => left; rw [troc_ok h]
  | error e =>
    by_cases h4 : e.statusCode = 404
    · right; rw [troc_err404 h h4]
    · left; rw [troc_errOther h h4]

theorem troc_head {σ : Type} (repl crt : σ → σ × Except K8sError Unit)
    (rc cc : K8sCall) (s : σ) :
    (tryReplaceOrCreate repl crt rc cc s).2.1.head? = some rc := by
  rcases troc_trace_shape repl crt rc cc s with h | h <;> rw [h] <;> rfl

/-- Unfold `createOrUpdateDeployment` into its three blocks. -/
theorem cou_eq {σ : Type} (M : StoreModel σ) (p : DeployParams) (s : σ) :
    createOrUpdateDeployment M p s =
      match stepD M p s with
      | (s1, tr1, some e) => (s1, tr1, some e)
      | (s1, tr1, none) =>
        match stepS M p s1 with
        | (s2, tr2, some e) => (s2, tr1 ++ tr2, some e)
        | (s2, tr2, none) =>
          match stepI M p s2 with
          | (s3, tr3, r) => (s3, tr1 ++ tr2 ++ tr3, r) := rfl

theorem cou_step1_err {σ : Type} {M : StoreModel σ} {p : DeployParams}
    {s s1 : σ} {tr1 : List K8sCall} {e : K8sError}
    (h : stepD M p s = (s1, tr1, some e)) :
    createOrUpdateDeployment M p s = (s1, tr1, some e) := by
  rw [cou_eq, h]

theorem cou_step2_err {σ : Type} {M : StoreModel σ} {p : DeployParams}
    {s s1 s2 : σ} {tr1 tr2 : List K8sCall} {e : K8sError}
    (h1 : stepD M p s = (s1, tr1, none))
    (h2 : stepS M p s1 = (s2, tr2, some e)) :
    createOrUpdateDeployment M p s = (s2, tr1 ++ tr2, some e) := by
  rw [cou_eq, h1]; dsimp only; rw [h2]

theorem cou_step3 {σ : Type} {M : StoreModel σ} {p : DeployParams}
    {s s1 s2 s3 : σ} {tr1 tr2 tr3 : List K8sCall} {r : Option K8sError}
    (h1 : stepD M p s = (s1, tr1, none))
    (h2 : stepS M p s1 = (s2, tr2, none))
    (h3 : stepI M p s2 = (s3, tr3, r)) :
    createOrUpdateDeployment M p s = (s3, tr1 ++ tr2 ++ tr3, r) := by
  rw [cou_eq, h1]; dsimp only; rw [h2]; dsimp only; rw [h3]

/-- C1.  For every resource kind, the convergence routine first attempts a
full replace of the named resource; a create of the same desired document
is issued if and only if the store rejected the replace with status 404;
any other store error is propagated unmodified and aborts the remaining
convergence steps.  Stated generically for one replace-or-create block
(which the last conjunct shows is exactly how `createOrUpdateDeployment`
chains its Deployment, Service and Ingress blocks, with short-circuiting),
plus explicit abort conjuncts for a failing Deployment or Service block. -/
theorem claim1_replace_then_create_on_404_else_propagate :
    ∀ (σ : Type) (repl crt : σ → σ × Except K8sError Unit)
      (rc cc : K8sCall) (s : σ),
      -- the replace is always attempted first
      ((tryReplaceOrCreate repl crt rc cc s).2.1.head? = some rc)
      -- a successful replace issues no create
      ∧ (∀ s1 u, repl s = (s1, Except.ok u) →
          tryReplaceOrCreate repl crt rc cc s = (s1, [rc], none))
      -- a 404-rejected replace is followed by a create of the same document
      ∧ (∀ s1 e, repl s = (s1, Except.error e) → e.statusCode = 404 →
          (tryReplaceOrCreate repl crt rc cc s).2.1 = [rc, cc])
      -- any other error: no create, the block returns that very error
      ∧ (∀ s1 e, repl s = (s1, Except.error e) → e.statusCode ≠ 404 →
          tryReplaceOrCreate repl crt rc cc s = (s1, [rc], some e))
      -- a failing Deployment block aborts the Service and Ingress blocks
      ∧ (∀ (M : StoreModel σ) (p : DeployParams) (s1 : σ)
           (tr1 : List K8sCall) (e : K8sError),
           stepD M p s = (s1, tr1, some e) →
           createOrUpdateDeployment M p s = (s1, tr1, some e))
      -- a failing Service block aborts the Ingress block
      ∧ (∀ (M : StoreModel σ) (p : DeployParams) (s1 s2 : σ)
           (tr1 tr2 : List K8sCall) (e : K8sError),
           stepD M p s = (s1, tr1, none) → stepS M p s1 = (s2, tr2, some e) →
           createOrUpdateDeployment M p s = (s2, tr1 ++ tr2, some e))
      -- the routine is exactly the three blocks chained in order
      ∧ (∀ (M : StoreModel σ) (p : DeployParams),
           createOrUpdateDeployment M p s =
             match stepD M p s with
             | (s1, tr1, some e) => (s1, tr1, some e)
             | (s1, tr1, none) =>
               match stepS M p s1 with
               | (s2, tr2, some e) => (s2, tr1 ++ tr2, some e)
               | (s2, tr2, none) =>
                 match stepI M p s2 with
                 | (s3, tr3, r) => (s3, tr1 ++ tr2 ++ tr3, r)) := by
  intro σ repl crt rc cc s
  refine ⟨troc_head repl crt rc cc s, ?_, ?_, ?_, ?_, ?_, ?_⟩
  · intro s1 u h; exact troc_ok h
  · intro s1 e h h4; rw [troc_err404 h h4]
  · intro s1 e h h4; exact troc_errOther h h4
  · intro M p s1 tr1 e h; exact cou_step1_err h
  · intro M p s1 s2 tr1 tr2 e h1 h2; exact cou_step2_err h1 h2
  · intro M p; exact cou_eq M p s

/-- Witness for C1: a store whose Deployment replace is rejected with a
non-404 (500) error propagates exactly that error and issues no create. -/
theorem claim1_witness :
    tryReplaceOrCreate
        (fun s : KStore => (s, Except.error ⟨500, "boom"⟩))
        (fun s : KStore => (s, Except.ok ()))
        (K8sCall.replaceDeployment "demo" (mkDeployment demoParams))
        (K8sCall.createDeployment (mkDeployment demoParams)) emptyStore =
      (emptyStore, [K8sCall.replaceDeployment "demo" (mkDeployment demoParams)],
        some ⟨500, "boom"⟩) :=
  (claim1_replace_then_create_on_404_else_propagate KStore
      (fun s => (s, Except.error ⟨500, "boom"⟩)) (fun s => (s, Except.ok ()))
      (K8sCall.replaceDeployment "demo" (mkDeployment demoParams))
      (K8sCall.createDeployment (mkDeployment demoParams))
      emptyStore).2.2.2.1 emptyStore ⟨500, "boom"⟩ rfl (by decide)

/-! ## Lemmas about the honest store -/

theorem lookupRes_append_of_none {α : Type} {l : List (String × α)}
    {n : String} (l' : List (String × α)) (h : lookupRes l n = none) :
    lookupRes (l ++ l') n = lookupRes l' n := by
  induction l with
  | nil => rfl
  | cons kv rest ih =>
    obtain ⟨k, v⟩ := kv
    by_cases hk : k = n
    · simp [lookupRes, hk] at h
    · simp [lookupRes, hk] at h ⊢
      exact ih h

theorem lookupRes_replaceRes_self {α : Type} (l : List (String × α))
    (n : String) (d : α) :
    lookupRes (replaceRes l n d) n = (lookupRes l n).map (fun _ => d) := by
  induction l with
  | nil => rfl
  | cons kv rest ih =>
    obtain ⟨k, v⟩ := kv
    simp only [replaceRes, List.map_cons] at ih ⊢
    by_cases hk : k = n
    · subst hk
      rw [if_pos rfl]
      simp [lookupRes]
    · rw [if_neg hk]
      simp only [lookupRes, if_neg hk]
      exact ih

theorem replaceRes_of_lookup_none {α : Type} {l : List (String × α)}
    {n : String} (d : α) (h : lookupRes l n = none) :
    replaceRes l n d = l := by
  induction l with
  | nil => rfl
  | cons kv rest ih =>
    obtain ⟨k, v⟩ := kv
    by_cases hk : k = n
    · simp [lookupRes, hk] at h
    · simp only [lookupRes, if_neg hk] at h
      simp only [replaceRes, List.map_cons] at ih ⊢
      rw [if_neg hk, ih h]

theorem replaceRes_append {α : Type} (l l' : List (String × α))
    (n : String) (d : α) :
    replaceRes (l ++ l') n d = replaceRes l n d ++ replaceRes l' n d := by
  simp [replaceRes]

theorem replaceRes_replaceRes {α : Type} (l : List (String × α))
    (n : String) (d : α) :
    replaceRes (replaceRes l n d) n d = replaceRes l n d := by
  induction l with
  | nil => rfl
  | cons kv rest ih =>
    obtain ⟨k, v⟩ := kv
    simp only [replaceRes, List.map_cons] at ih ⊢
    by_cases hk : k = n
    · subst hk
      rw [if_pos rfl, if_pos rfl, ih]
    · rw [if_neg hk, if_neg hk, ih]

theorem applyStep_present {α : Type} {l : List (String × α)} {n : String}
    (d : α) (h : (lookupRes l n).isSome = true) :
    applyStep l n d = replaceRes l n d := by
  unfold applyStep; rw [if_pos h]

theorem applyStep_absent {α : Type} {l : List (String × α)} {n : String}
    (d : α) (h : ¬ (lookupRes l n).isSome = true) :
    applyStep l n d = l ++ [(n, d)] := by
  unfold applyStep; rw [if_neg h]

theorem lookupRes_applyStep_self {α : Type} (l : List (String × α))
    (n : String) (d : α) :
    lookupRes (applyStep l n d) n = some d := by
  by_cases h : (lookupRes l n).isSome
  · rw [applyStep_present d h, lookupRes_replaceRes_self]
    obtain ⟨v, hv⟩ := Option.isSome_iff_exists.mp h
    rw [hv]; rfl
  · rw [applyStep_absent d h,
      lookupRes_append_of_none _ (Option.not_isSome_iff_eq_none.mp h)]
    simp [lookupRes]

theorem applyStep_applyStep {α : Type} (l : List (String × α))
    (n : String) (d : α) :
    applyStep (applyStep l n d) n d = applyStep l n d := by
  have h1 : (lookupRes (applyStep l n d) n).isSome = true := by
    rw [lookupRes_applyStep_self]; rfl
  rw [applyStep_present d h1]
  by_cases h : (lookupRes l n).isSome
  · rw [applyStep_present d h, replaceRes_replaceRes]
  · rw [applyStep_absent d h, replaceRes_append,
      replaceRes_of_lookup_none d (Option.not_isSome_iff_eq_none.mp h)]
    simp [replaceRes]

theorem honest_stepD (p : DeployParams) (s : KStore) :
    stepD honestModel p s =
      ({ s with deployments := applyStep s.deployments p.app_name (mkDeployment p) },
       honestTraceFor (lookupRes s.deployments p.app_name).isSome
         (.replaceDeployment p.app_name (mkDeployment p))
         (.createDeployment (mkDeployment p)),
       none) := by
  by_cases h : (lookupRes s.deployments p.app_name).isSome
  · simp [stepD, tryReplaceOrCreate, honestModel, honestReplace, applyStep,
      honestTraceFor, h]
  · simp [stepD, tryReplaceOrCreate, honestModel, honestReplace, honestCreate,
      applyStep, honestTraceFor, h, mkDeployment]

theorem honest_stepS (p : DeployParams) (s : KStore) :
    stepS honestModel p s =
      ({ s with services := applyStep s.services p.app_name (mkService p) },
       honestTraceFor (lookupRes s.services p.app_name).isSome
         (.replaceService p.app_name (mkService p))
         (.createService (mkService p)),
       none) := by
  by_cases h : (lookupRes s.services p.app_name).isSome
  · simp [stepS, tryReplaceOrCreate, honestModel, honestReplace, applyStep,
      honestTraceFor, h]
  · simp [stepS, tryReplaceOrCreate, honestModel, honestReplace, honestCreate,
      applyStep, honestTraceFor, h, mkService]

theorem honest_stepI (p : DeployParams) (s : KStore) :
    stepI honestModel p s =
      ({ s with ingresses :=
           applyStep s.ingresses (p.app_name ++ "-ingress") (mkIngress p) },
       honestTraceFor (lookupRes s.ingresses (p.app_name ++ "-ingress")).isSome
         (.replaceIngress (p.app_name ++ "-ingress") (mkIngress p))
         (.createIngress (mkIngress p)),
       none) := by
  by_cases h : (lookupRes s.ingresses (p.app_name ++ "-ingress")).isSome
  · simp [stepI, tryReplaceOrCreate, honestModel, honestReplace, applyStep,
      honestTraceFor, h]
  · simp [stepI, tryReplaceOrCreate, honestModel, honestReplace, honestCreate,
      applyStep, honestTraceFor, h, mkIngress]

/-- A full honest-store convergence run: every block succeeds, each kind's
collection gets its desired document applied, and the trace is the three
blocks' traces in Deployment, Service, Ingress order. -/
theorem honest_run (p : DeployParams) (s : KStore) :
    createOrUpdateDeployment honestModel p s =
      (⟨applyStep s.deployments p.app_name (mkDeployment p),
        applyStep s.services p.app_name (mkService p),
        applyStep s.ingresses (p.app_name ++ "-ingress") (mkIngress p)⟩,
       honestTraceFor (lookupRes s.deployments p.app_name).isSome
           (.replaceDeployment p.app_name (mkDeployment p))
           (.createDeployment (mkDeployment p))
         ++ honestTraceFor (lookupRes s.services p.app_name).isSome
             (.replaceService p.app_name (mkService p))
             (.createService (mkService p))
         ++ honestTraceFor (lookupRes s.ingresses (p.app_name ++ "-ingress")).isSome
             (.replaceIngress (p.app_name ++ "-ingress") (mkIngress p))
             (.createIngress (mkIngress p)),
       none) := by
  rw [cou_eq, honest_stepD]
  dsimp only
  rw [honest_stepS]
  dsimp only
  rw [honest_stepI]

/-- C7.  Running the convergence routine twice against the honest store
with an unchanged desired document leaves the store exactly as after one
run: the second run performs three replaces with identical content, no
create and no error, and does not change the store. -/
theorem claim7_converge_idempotent :
    ∀ (p : DeployParams) (s : KStore),
      createOrUpdateDeployment honestModel p
          (createOrUpdateDeployment honestModel p s).1 =
        ((createOrUpdateDeployment honestModel p s).1,
         [.replaceDeployment p.app_name (mkDeployment p),
          .replaceService p.app_name (mkService p),
          .replaceIngress (p.app_name ++ "-ingress") (mkIngress p)],
         none) := by
  intro p s
  rw [honest_run p s]
  dsimp only
  rw [honest_run p _]
  simp [lookupRes_applyStep_self, applyStep_applyStep, honestTraceFor]

/-- C2 is refuted: against a store with NO pre-existing Deployment named
`demo`, converging app `demo` still issues one replace call for the
Deployment kind (which the store rejects with 404) — not the zero replace
calls the claim asserts. -/
theorem claim2_counterexample :
    lookupRes emptyStore.deployments demoParams.app_name = none
    ∧ (createOrUpdateDeployment honestModel demoParams emptyStore).2.1.countP
        (·.isReplaceDeployment) = 1
    ∧ ¬ (createOrUpdateDeployment honestModel demoParams emptyStore).2.1.countP
        (·.isReplaceDeployment) = 0 := by
  refine ⟨rfl, ?_, ?_⟩ <;> decide

/-- C2 (amended).  Against a store with no pre-existing Deployment named
`X`, converging app `X` results in exactly one create call and exactly one
replace call for the Deployment kind (the replace attempt the store
rejects with 404 — zero successful replaces); against a store with a
pre-existing Deployment named `X`, exactly one replace call and zero
create calls. -/
theorem claim2_amended_create_and_replace_counts :
    ∀ (p : DeployParams) (s : KStore),
      (lookupRes s.deployments p.app_name = none →
        (createOrUpdateDeployment honestModel p s).2.1.countP
            (·.isCreateDeployment) = 1
        ∧ (createOrUpdateDeployment honestModel p s).2.1.countP
            (·.isReplaceDeployment) = 1)
      ∧ ((lookupRes s.deployments p.app_name).isSome = true →
        (createOrUpdateDeployment honestModel p s).2.1.countP
            (·.isReplaceDeployment) = 1
        ∧ (createOrUpdateDeployment honestModel p s).2.1.countP
            (·.isCreateDeployment) = 0) := by
  intro p s
  rw [honest_run p s]
  constructor
  · intro h
    rw [h]
    by_cases hs : (lookupRes s.services p.app_name).isSome <;>
      by_cases hi : (lookupRes s.ingresses (p.app_name ++ "-ingress")).isSome <;>
        simp [hs, hi, honestTraceFor, List.countP_cons, List.countP_append,
          K8sCall.isCreateDeployment, K8sCall.isReplaceDeployment]
  · intro h
    rw [h]
    by_cases hs : (lookupRes s.services p.app_name).isSome <;>
      by_cases hi : (lookupRes s.ingresses (p.app_name ++ "-ingress")).isSome <;>
        simp [hs, hi, honestTraceFor, List.countP_cons, List.countP_append,
          K8sCall.isCreateDeployment, K8sCall.isReplaceDeployment]

/-- Witness for the amended C2, at the example app `demo`: once against the
empty store (no pre-existing Deployment) and once against a store already
holding Deployment `demo`. -/
theorem claim2_amended_witness :
    ((createOrUpdateDeployment honestModel demoParams emptyStore).2.1.countP
        (·.isCreateDeployment) = 1
      ∧ (createOrUpdateDeployment honestModel demoParams emptyStore).2.1.countP
        (·.isReplaceDeployment) = 1)
    ∧ ((createOrUpdateDeployment honestModel demoParams
          ⟨[("demo", mkDeployment demoParams)], [], []⟩).2.1.countP
        (·.isReplaceDeployment) = 1
      ∧ (createOrUpdateDeployment honestModel demoParams
          ⟨[("demo", mkDeployment demoParams)], [], []⟩).2.1.countP
        (·.isCreateDeployment) = 0) :=
  ⟨(claim2_amended_create_and_replace_counts demoParams emptyStore).1 rfl,
   (claim2_amended_create_and_replace_counts demoParams
      ⟨[("demo", mkDeployment demoParams)], [], []⟩).2 rfl⟩

/-! ## Decimal representations are digit strings -/

theorem digitChar_isDigit : ∀ m : Nat, m < 10 →
    (Nat.digitChar m).isDigit = true := by decide

theorem toDigitsCore_all_digits :
    ∀ (f n : Nat) (l : List Char), (∀ c ∈ l, c.isDigit = true) →
      ∀ c ∈ Nat.toDigitsCore 10 f n l, c.isDigit = true := by
  intro f
  induction f with
  | zero =>
    intro n l hl
    simpa [Nat.toDigitsCore] using hl
  | succ f ih =>
    intro n l hl c hc
    have hhead : ∀ c' ∈ Nat.digitChar (n % 10) :: l, c'.isDigit = true := by
      intro c' hc'
      rcases List.mem_cons.mp hc' with h | h
      · subst h; exact digitChar_isDigit _ (Nat.mod_lt _ (by norm_num))
      · exact hl c' h
    by_cases h : n / 10 = 0
    · simp only [Nat.toDigitsCore, h, if_true] at hc
      exact hhead c hc
    · simp only [Nat.toDigitsCore, h, if_false] at hc
      exact ih (n / 10) (Nat.digitChar (n % 10) :: l) hhead c hc

theorem isDigitString_natRepr (n : Nat) : isDigitString (Nat.repr n) = true := by
  rw [isDigitString, List.all_eq_true]
  intro c hc
  exact toDigitsCore_all_digits (n + 1) n [] (by intro c h; cases h) c hc

/-- C8.  On the §8 example request (image `ghcr.io/u/r:latest`, app
`demo`, port 4000) the builders produce the expected Deployment, Service
and Ingress documents, and the deploy response (against the honest store)
is a 200 whose `job_id` is `demo-` followed by the decimal timestamp
digits and whose `domain` is `demo.0rca.live`. -/
theorem claim8_example_end_to_end :
    mkDeployment demoParams =
      { apiVersion := "apps/v1", kind := "Deployment",
        metadata := { name := "demo", ns := NAMESPACE },
        spec :=
          { replicas := 1
            selector := { matchLabels := [("app", "demo")] }
            template :=
              { metadata := { labels := [("app", "demo")] }
                spec :=
                  { containers :=
                      [{ name := "demo", image := "ghcr.io/u/r:latest",
                         ports := [{ containerPort := 4000 }] }]
                    imagePullSecrets := [{ name := "regcred" }] } } } }
    ∧ mkService demoParams =
      { apiVersion := "v1", kind := "Service",
        metadata := { name := "demo", ns := NAMESPACE },
        spec :=
          { selector := [("app", "demo")]
            ports := [{ port := 80, targetPort := 4000 }]
            type := "ClusterIP" } }
    ∧ mkIngress demoParams =
      { apiVersion := "networking.k8s.io/v1", kind := "Ingress",
        metadata :=
          { name := "demo-ingress", ns := NAMESPACE,
            annotations := [("nginx.ingress.kubernetes.io/rewrite-target", "/")] },
        spec :=
          { ingressClassName := "nginx"
            rules :=
              [{ host := "demo.0rca.live"
                 http :=
                   { paths :=
                       [{ path := "/", pathType := "Prefix",
                          backend :=
                            { service :=
                                { name := "demo", port := { number := 80 } } } }] } }] } }
    ∧ ∀ (now : Nat) (clients : List Client) (s : KStore),
        (deployHandler honestModel clients now demoReqBody s).statusCode = 200
        ∧ (deployHandler honestModel clients now demoReqBody s).body =
            .ok ("demo-" ++ Nat.repr now) "completed" "demo.0rca.live"
              "http://demo.0rca.live"
        ∧ isDigitString (Nat.repr now) = true := by
  refine ⟨rfl, rfl, rfl, ?_⟩
  intro now clients s
  refine ⟨?_, ?_, isDigitString_natRepr now⟩ <;>
    simp only [deployHandler, demoReqBody, jsFalsyStr, Option.getD_some,
      Option.getD_none, Bool.or_false, Bool.false_or, honest_run] <;>
      rfl

/-- C4.  The status computed for a live object is: completed/deployed when
the ready-replica count (resp. succeeded count) is positive; otherwise
failed when the replica count equals 0 (resp. the failed count is
positive); otherwise the default running/deploying (resp. building).  The
result is a pure function of the live counters, so once the ready-replica
count is positive every poll returns `completed` until the Deployment is
externally changed; and a status query that reaches the live object
reports exactly this resolution. -/
theorem claim4_status_pure_function_of_counters :
    ∀ (st : DeploymentK8sStatus) (jt : JobK8sStatus),
      (st.readyReplicas.getD 0 > 0 →
        resolveDeploymentStatus st =
          ("completed", "deployed", "Deployment successful"))
      ∧ (¬ st.readyReplicas.getD 0 > 0 → st.replicas = some 0 →
        resolveDeploymentStatus st = ("failed", "failed", "Deployment failed"))
      ∧ (¬ st.readyReplicas.getD 0 > 0 → ¬ st.replicas = some 0 →
        resolveDeploymentStatus st =
          ("running", "deploying", "Deployment in progress"))
      ∧ (jt.succeeded.getD 0 > 0 →
        resolveJobStatus jt =
          ("completed", "deployed", "Build and deployment successful"))
      ∧ (¬ jt.succeeded.getD 0 > 0 → jt.failed.getD 0 > 0 →
        resolveJobStatus jt = ("failed", "failed", "Build failed"))
      ∧ (¬ jt.succeeded.getD 0 > 0 → ¬ jt.failed.getD 0 > 0 →
        resolveJobStatus jt = ("running", "building", "Build in progress"))
      ∧ (∀ st2 : DeploymentK8sStatus, st.readyReplicas = st2.readyReplicas →
          st.replicas = st2.replicas →
          resolveDeploymentStatus st = resolveDeploymentStatus st2)
      ∧ (∀ (jobId : String) (rd : String → Except K8sError DeploymentK8sStatus),
          rd (extractAppName jobId) = .ok st →
          statusHandler jobId rd =
            (200, .ok jobId (resolveDeploymentStatus st).1
              (resolveDeploymentStatus st).2.1 (resolveDeploymentStatus st).2.2)) := by
  intro st jt
  refine ⟨?_, ?_, ?_, ?_, ?_, ?_, ?_, ?_⟩
  · intro h; simp [resolveDeploymentStatus, h]
  · intro h1 h2; simp [resolveDeploymentStatus, h1, h2]
  · intro h1 h2; simp [resolveDeploymentStatus, h1, h2]
  · intro h; simp [resolveJobStatus, h]
  · intro h1 h2; simp [resolveJobStatus, h1, h2]
  · intro h1 h2; simp [resolveJobStatus, h1, h2]
  · intro st2 h1 h2
    obtain ⟨r, q⟩ := st; obtain ⟨r2, q2⟩ := st2
    cases h1; cases h2; rfl
  · intro jobId rd h
    simp [statusHandler, h]

/-- Witness for C4: a Deployment with one ready replica resolves to
completed/deployed, a Deployment with zero replicas to failed, a fresh
Deployment (no counters yet) to running, a Job with a failure count to
failed; and the handler reports the resolution of the object it read. -/
theorem claim4_witness :
    resolveDeploymentStatus ⟨some 1, some 1⟩ =
      ("completed", "deployed", "Deployment successful")
    ∧ resolveDeploymentStatus ⟨none, some 0⟩ =
      ("failed", "failed", "Deployment failed")
    ∧ resolveDeploymentStatus ⟨none, none⟩ =
      ("running", "deploying", "Deployment in progress")
    ∧ resolveJobStatus ⟨none, some 2⟩ = ("failed", "failed", "Build failed")
    ∧ statusHandler "demo-7"
        (fun _ => .ok (⟨some 1, some 1⟩ : DeploymentK8sStatus)) =
      (200, .ok "demo-7" "completed" "deployed" "Deployment successful") :=
  ⟨(claim4_status_pure_function_of_counters ⟨some 1, some 1⟩ ⟨none, none⟩).1
      (by decide),
   (claim4_status_pure_function_of_counters ⟨none, some 0⟩ ⟨none, none⟩).2.1
      (by decide) rfl,
   (claim4_status_pure_function_of_counters ⟨none, none⟩ ⟨none, none⟩).2.2.1
      (by decide) (by decide),
   (claim4_status_pure_function_of_counters ⟨none, none⟩ ⟨none, some 2⟩).2.2.2.2.1
      (by decide) (by decide),
   (claim4_status_pure_function_of_counters ⟨some 1, some 1⟩
      ⟨none, none⟩).2.2.2.2.2.2.2 "demo-7"
      (fun _ => .ok (⟨some 1, some 1⟩ : DeploymentK8sStatus)) rfl⟩

/-- C5.  A deploy request missing (or blank, which JavaScript treats the
same) `app_name` or `image_name` is answered with a 400 and the exact
error body, the store is untouched, no resource-store call is issued and
nothing is broadcast. -/
theorem claim5_missing_fields_400_no_store_calls :
    ∀ (σ : Type) (M : StoreModel σ) (clients : List Client) (now : Nat)
      (body : DeployReqBody) (s : σ),
      (jsFalsyStr body.image_name || jsFalsyStr body.app_name) = true →
      deployHandler M clients now body s =
        ⟨400, .err "Missing required fields: image_name, app_name", s, [], []⟩ := by
  intro σ M clients now body s h
  simp [deployHandler, h]

/-- Witness for C5: a request with only `app_name` is rejected with 400
and zero store calls. -/
theorem claim5_witness :
    deployHandler honestModel [] 0 { app_name := some "demo" } emptyStore =
      ⟨400, .err "Missing required fields: image_name, app_name",
        emptyStore, [], []⟩ :=
  claim5_missing_fields_400_no_store_calls KStore honestModel [] 0
    { app_name := some "demo" } emptyStore rfl

/-! ## Job-id parsing -/

theorem splitChar_ne_nil (sep : Char) (l : List Char) :
    splitChar sep l ≠ [] := by
  cases l with
  | nil => intro h; cases h
  | cons c rest =>
    rw [splitChar]
    rcases h : splitChar sep rest with _ | ⟨g, gs⟩
    · intro h2; cases h2
    · by_cases hc : c = sep <;> simp [hc]

theorem splitChar_append_of_not_mem (sep : Char) (l₁ l₂ : List Char)
    (h : sep ∉ l₁) :
    splitChar sep (l₁ ++ sep :: l₂) = l₁ :: splitChar sep l₂ := by
  induction l₁ with
  | nil =>
    simp only [List.nil_append]
    rw [splitChar]
    rcases hs : splitChar sep l₂ with _ | ⟨g, gs⟩
    · exact absurd hs (splitChar_ne_nil sep l₂)
    · simp
  | cons c rest ih =>
    have hc : c ≠ sep := fun hcc => h (hcc ▸ List.mem_cons_self c rest)
    have hrest : sep ∉ rest := fun hm => h (List.mem_cons_of_mem c hm)
    simp only [List.cons_append]
    rw [splitChar, ih hrest]
    simp [fun hcc => hc hcc]

/-- C3 is refuted: on the job id `my-app-1700000000000` (generated for the
hyphenated app name `my-app`), the code extracts `my` — the substring
before the FIRST hyphen — not the substring `my-app` before the final
timestamp segment; consequently the handler asks the store for Deployment
`my`, gets a 404, and answers `Deployment not found` even though the
Deployment `my-app` the claim points at exists and is ready. -/
theorem claim3_counterexample :
    extractAppName "my-app-1700000000000" = "my"
    ∧ specExtractAppName "my-app-1700000000000" = "my-app"
    ∧ extractAppName "my-app-1700000000000" ≠
        specExtractAppName "my-app-1700000000000"
    ∧ statusHandler "my-app-1700000000000"
        (fun n => if n = "my-app"
          then .ok (⟨some 1, some 1⟩ : DeploymentK8sStatus)
          else .error ⟨404, "not found"⟩) =
        (404, .err "Deployment not found")
    ∧ (fun n => if n = "my-app"
          then Except.ok (⟨some 1, some 1⟩ : DeploymentK8sStatus)
          else Except.error (⟨404, "not found"⟩ : K8sError))
        (specExtractAppName "my-app-1700000000000") =
        .ok (⟨some 1, some 1⟩ : DeploymentK8sStatus) := by
  refine ⟨rfl, rfl, ?_, rfl, rfl⟩
  decide

/-- C3 (amended).  The status resolver extracts the app name as the
substring of `jobId` before the FIRST hyphen (`jobId.split('-')[0]`), so a
generated job id `appName-timestamp` recovers `appName` exactly when
`appName` itself contains no hyphen; the resolver consults the store only
at that extracted name, and the build-capable variant consults the Job
store only at the full `jobId`. -/
theorem claim3_amended_first_segment_extraction :
    (∀ (a t : String), (∀ c ∈ a.data, c ≠ '-') →
      extractAppName (a ++ "-" ++ t) = a)
    ∧ (∀ (jobId : String)
        (r₁ r₂ : String → Except K8sError DeploymentK8sStatus),
        r₁ (extractAppName jobId) = r₂ (extractAppName jobId) →
        statusHandler jobId r₁ = statusHandler jobId r₂)
    ∧ (∀ (jobId : String) (r₁ r₂ : String → Except K8sError JobK8sStatus),
        r₁ jobId = r₂ jobId → statusHandlerJob jobId r₁ = statusHandlerJob jobId r₂) := by
  refine ⟨?_, ?_, ?_⟩
  · intro a t h
    have hd : (a ++ "-" ++ t).data = a.data ++ '-' :: t.data := by
      simp [String.data_append]
    have hnm : '-' ∉ a.data := fun hm => h '-' hm rfl
    rw [extractAppName, hd, splitChar_append_of_not_mem '-' a.data t.data hnm]
    rfl
  · intro jobId r₁ r₂ h
    simp only [statusHandler, h]
  · intro jobId r₁ r₂ h
    simp only [statusHandlerJob, h]

/-- Witness for the amended C3: the hyphen-free app name `foo` is
recovered from the generated job id `foo-123`. -/
theorem claim3_amended_witness :
    extractAppName ("foo" ++ "-" ++ "123") = "foo" :=
  claim3_amended_first_segment_extraction.1 "foo" "123" (by decide)

/-! ## Broadcast-channel lemmas -/

theorem mem_broadcastLog {clients : List Client} {now : Nat}
    {jobId level message : String} {c : Client} {ev : LogEvent} :
    (c, ev) ∈ broadcastLog clients now jobId level message ↔
      c ∈ clients ∧ c.readyState = true ∧ jobId ∈ c.subscribedJobs
        ∧ ev = ⟨jobId, level, message, now⟩ := by
  simp only [broadcastLog, List.mem_map, List.mem_filter, Bool.and_eq_true,
    List.contains, List.elem_iff, Prod.mk.injEq]
  constructor
  · rintro ⟨a, ⟨ha, hro, hsub⟩, rfl, rfl⟩
    exact ⟨ha, hro, hsub, rfl⟩
  · rintro ⟨ha, hro, hsub, rfl⟩
    exact ⟨c, ⟨ha, hro, hsub⟩, rfl, rfl⟩

/-- C9.  A published event is delivered exactly to the currently-connected
open observers whose subscription set contains the published job id at
publish time — and, with it, the event itself; a connection not subscribed
to that job id (in particular one subscribed only to other job ids, or
one that processed an unsubscribe for it before the publish) receives
nothing. -/
theorem claim9_broadcast_exactly_subscribed :
    ∀ (clients : List Client) (now : Nat) (jobId level message : String),
      (∀ (c : Client) (ev : LogEvent),
        (c, ev) ∈ broadcastLog clients now jobId level message ↔
          (c ∈ clients ∧ c.readyState = true ∧ jobId ∈ c.subscribedJobs
            ∧ ev = ⟨jobId, level, message, now⟩))
      ∧ (jobId ≠ "" →
        ∀ (c : Client) (ev : LogEvent),
          (wsHandleMessage c ⟨"unsubscribe", some jobId⟩, ev) ∉
            broadcastLog clients now jobId level message) := by
  intro clients now jobId level message
  refine ⟨fun c ev => mem_broadcastLog, ?_⟩
  intro hne c ev hmem
  have hsub := (mem_broadcastLog.mp hmem).2.2.1
  have hnot : jobId ∉
      (wsHandleMessage c ⟨"unsubscribe", some jobId⟩).subscribedJobs := by
    simp [wsHandleMessage, hne]
  exact hnot hsub

/-- Witness for C9: the event reaches the open connection subscribed to
`foo-123`, and a connection that just unsubscribed from `foo-123` is not
among the receivers. -/
theorem claim9_witness :
    ((⟨0, true, ["foo-123"]⟩ : Client),
      (⟨"foo-123", "info", "hello", 5⟩ : LogEvent)) ∈
        broadcastLog [⟨0, true, ["foo-123"]⟩, ⟨1, true, ["other"]⟩] 5
          "foo-123" "info" "hello"
    ∧ ∀ ev : LogEvent,
        (wsHandleMessage ⟨2, true, ["foo-123"]⟩ ⟨"unsubscribe", some "foo-123"⟩,
          ev) ∉
          broadcastLog [⟨0, true, ["foo-123"]⟩, ⟨1, true, ["other"]⟩] 5
            "foo-123" "info" "hello" :=
  ⟨((claim9_broadcast_exactly_subscribed
        [⟨0, true, ["foo-123"]⟩, ⟨1, true, ["other"]⟩] 5
        "foo-123" "info" "hello").1 _ _).mpr (by decide),
   fun ev =>
    (claim9_broadcast_exactly_subscribed
        [⟨0, true, ["foo-123"]⟩, ⟨1, true, ["other"]⟩] 5
        "foo-123" "info" "hello").2 (by decide) ⟨2, true, ["foo-123"]⟩ ev⟩

/-- C10.  When convergence fails during `POST /deploy`, the handler
answers 500 with the error message, and the failure log event is broadcast
under the literal job id `error` — which is never equal to the request's
generated job id — so it is delivered only to connections subscribed to
`error`: an observer subscribed (only) to the request's job id receives no
event whose `job_id` is `error`, i.e. no failure event for its job. -/
theorem claim10_failure_event_under_literal_error_id :
    ∀ (σ : Type) (M : StoreModel σ) (clients : List Client) (now : Nat)
      (body : DeployReqBody) (s : σ) (e : K8sError),
      (jsFalsyStr body.image_name || jsFalsyStr body.app_name) = false →
      (createOrUpdateDeployment M
          ⟨body.app_name.getD "", body.image_name.getD "",
           body.port.getD 3000, body.registry_auth.getD "regcred",
           if jsFalsyStr body.domain then body.app_name.getD "" ++ ".0rca.live"
           else body.domain.getD ""⟩ s).2.2 = some e →
      (deployHandler M clients now body s).statusCode = 500
      ∧ (deployHandler M clients now body s).body = .err e.message
      ∧ (body.app_name.getD "" ++ "-" ++ Nat.repr now) ≠ "error"
      ∧ (∀ (c : Client) (ev : LogEvent),
          (c, ev) ∈ (deployHandler M clients now body s).sends →
          ev.job_id = "error" →
          ("error" ∈ c.subscribedJobs ∧ ev.level = "error"
            ∧ ev.message = "Deploy failed: " ++ e.message)) := by
  intro σ M clients now body s e hv hc
  rcases hrun : createOrUpdateDeployment M
      ⟨body.app_name.getD "", body.image_name.getD "",
       body.port.getD 3000, body.registry_auth.getD "regcred",
       if jsFalsyStr body.domain then body.app_name.getD "" ++ ".0rca.live"
       else body.domain.getD ""⟩ s with ⟨s1, calls, r⟩
  rw [hrun] at hc
  simp only at hc
  subst hc
  have hjob : (body.app_name.getD "" ++ "-" ++ Nat.repr now) ≠ "error" := by
    intro heq
    have hm : '-' ∈ (body.app_name.getD "" ++ "-" ++ Nat.repr now).data := by
      simp [String.data_append]
    rw [heq] at hm
    revert hm
    decide
  have hout : deployHandler M clients now body s =
      ⟨500, .err e.message, s1, calls,
        broadcastLog clients now (body.app_name.getD "" ++ "-" ++ Nat.repr now)
            "info" ("Starting deployment for " ++ body.app_name.getD "")
          ++ broadcastLog clients now
              (body.app_name.getD "" ++ "-" ++ Nat.repr now) "info"
              ("Image: " ++ body.image_name.getD "")
          ++ broadcastLog clients now
              (body.app_name.getD "" ++ "-" ++ Nat.repr now) "info"
              ("Domain: " ++
                (if jsFalsyStr body.domain
                  then body.app_name.getD "" ++ ".0rca.live"
                  else body.domain.getD ""))
          ++ broadcastLog clients now "error" "error"
              ("Deploy failed: " ++ e.message)⟩ := by
    simp only [deployHandler, hv, Bool.false_eq_true, if_false, hrun]
  refine ⟨by rw [hout], by rw [hout], hjob, ?_⟩
  intro c ev hmem hevid
  rw [hout] at hmem
  simp only [DeployOutcome.sends] at hmem
  rcases List.mem_append.mp hmem with hm | hmE
  · rcases List.mem_append.mp hm with hm2 | hm3
    · rcases List.mem_append.mp hm2 with hm4 | hm5
      · have := (mem_broadcastLog.mp hm4).2.2.2
        rw [this] at hevid
        exact absurd hevid hjob
      · have := (mem_broadcastLog.mp hm5).2.2.2
        rw [this] at hevid
        exact absurd hevid hjob
    · have := (mem_broadcastLog.mp hm3).2.2.2
      rw [this] at hevid
      exact absurd hevid hjob
  · obtain ⟨_, _, hsub, hev⟩ := mem_broadcastLog.mp hmE
    exact ⟨hsub, by rw [hev], by rw [hev]⟩

/-- Witness for C10: a store whose Deployment replace fails with a 500
makes the deploy of `demo` fail; the failure event is broadcast under
`error`, and the connection subscribed only to the request's job id
`demo-7` receives nothing. -/
theorem claim10_witness :
    (deployHandler
        (faultyModel (fun c => if c.isReplaceDeployment
          then some ⟨500, "boom"⟩ else none))
        [⟨0, true, ["demo-7"]⟩] 7 demoReqBody emptyStore).statusCode = 500
    ∧ (deployHandler
        (faultyModel (fun c => if c.isReplaceDeployment
          then some ⟨500, "boom"⟩ else none))
        [⟨0, true, ["demo-7"]⟩] 7 demoReqBody emptyStore).body = .err "boom"
    ∧ ∀ (c : Client) (ev : LogEvent),
        (c, ev) ∈ (deployHandler
          (faultyModel (fun c => if c.isReplaceDeployment
            then some ⟨500, "boom"⟩ else none))
          [⟨0, true, ["demo-7"]⟩] 7 demoReqBody emptyStore).sends →
        ev.job_id = "error" → "error" ∈ c.subscribedJobs :=
  have h := claim10_failure_event_under_literal_error_id KStore
    (faultyModel (fun c => if c.isReplaceDeployment
      then some ⟨500, "boom"⟩ else none))
    [⟨0, true, ["demo-7"]⟩] 7 demoReqBody emptyStore ⟨500, "boom"⟩
    rfl (by decide)
  ⟨h.1, h.2.1, fun c ev hm he => (h.2.2.2 c ev hm he).1⟩

/-! ## Frame lemmas: each store operation touches only its own kind -/

theorem troc_preserves {σ α : Type} (g : σ → α)
    (repl crt : σ → σ × Except K8sError Unit)
    (hr : ∀ t, g (repl t).1 = g t) (hc : ∀ t, g (crt t).1 = g t)
    (rc cc : K8sCall) (s : σ) :
    g ((tryReplaceOrCreate repl crt rc cc s).1) = g s := by
  rcases h : repl s with ⟨s1, r⟩
  have h1 : g s1 = g s := by
    have := hr s
    rw [h] at this
    exact this
  cases r with
  | ok u => rw [troc_ok h]; exact h1
  | error e =>
    by_cases h4 : e.statusCode = 404
    · rw [troc_err404 h h4]
      have h2 := hc s1
      dsimp only
      rw [h2, h1]
    · rw [troc_errOther h h4]; exact h1

theorem faulty_replaceDeployment_frame (f : K8sCall → Option K8sError)
    (n : String) (d : Deployment) (s : KStore) :
    ((faultyModel f).replaceDeployment n d s).1.services = s.services
    ∧ ((faultyModel f).replaceDeployment n d s).1.ingresses = s.ingresses := by
  dsimp only [faultyModel]
  cases f (K8sCall.replaceDeployment n d) with
  | none => exact ⟨by dsimp only [honestModel], by dsimp only [honestModel]⟩
  | some e => exact ⟨rfl, rfl⟩

theorem faulty_createDeployment_frame (f : K8sCall → Option K8sError)
    (d : Deployment) (s : KStore) :
    ((faultyModel f).createDeployment d s).1.services = s.services
    ∧ ((faultyModel f).createDeployment d s).1.ingresses = s.ingresses := by
  dsimp only [faultyModel]
  cases f (K8sCall.createDeployment d) with
  | none => exact ⟨by dsimp only [honestModel], by dsimp only [honestModel]⟩
  | some e => exact ⟨rfl, rfl⟩

theorem faulty_replaceService_frame (f : K8sCall → Option K8sError)
    (n : String) (d : Service) (s : KStore) :
    ((faultyModel f).replaceService n d s).1.deployments = s.deployments
    ∧ ((faultyModel f).replaceService n d s).1.ingresses = s.ingresses := by
  dsimp only [faultyModel]
  cases f (K8sCall.replaceService n d) with
  | none => exact ⟨by dsimp only [honestModel], by dsimp only [honestModel]⟩
  | some e => exact ⟨rfl, rfl⟩

theorem faulty_createService_frame (f : K8sCall → Option K8sError)
    (d : Service) (s : KStore) :
    ((faultyModel f).createService d s).1.deployments = s.deployments
    ∧ ((faultyModel f).createService d s).1.ingresses = s.ingresses := by
  dsimp only [faultyModel]
  cases f (K8sCall.createService d) with
  | none => exact ⟨by dsimp only [honestModel], by dsimp only [honestModel]⟩
  | some e => exact ⟨rfl, rfl⟩

theorem faulty_replaceIngress_frame (f : K8sCall → Option K8sError)
    (n : String) (d : Ingress) (s : KStore) :
    ((faultyModel f).replaceIngress n d s).1.deployments = s.deployments
    ∧ ((faultyModel f).replaceIngress n d s).1.services = s.services := by
  dsimp only [faultyModel]
  cases f (K8sCall.replaceIngress n d) with
  | none => exact ⟨by dsimp only [honestModel], by dsimp only [honestModel]⟩
  | some e => exact ⟨rfl, rfl⟩

theorem faulty_createIngress_frame (f : K8sCall → Option K8sError)
    (d : Ingress) (s : KStore) :
    ((faultyModel f).createIngress d s).1.deployments = s.deployments
    ∧ ((faultyModel f).createIngress d s).1.services = s.services := by
  dsimp only [faultyModel]
  cases f (K8sCall.createIngress d) with
  | none => exact ⟨by dsimp only [honestModel], by dsimp only [honestModel]⟩
  | some e => exact ⟨rfl, rfl⟩

theorem faulty_stepD_frame (f : K8sCall → Option K8sError)
    (p : DeployParams) (s : KStore) :
    (stepD (faultyModel f) p s).1.services = s.services
    ∧ (stepD (faultyModel f) p s).1.ingresses = s.ingresses := by
  unfold stepD
  exact ⟨troc_preserves (fun t : KStore => t.services) _ _
      (fun t => (faulty_replaceDeployment_frame f p.app_name (mkDeployment p) t).1)
      (fun t => (faulty_createDeployment_frame f (mkDeployment p) t).1) _ _ s,
    troc_preserves (fun t : KStore => t.ingresses) _ _
      (fun t => (faulty_replaceDeployment_frame f p.app_name (mkDeployment p) t).2)
      (fun t => (faulty_createDeployment_frame f (mkDeployment p) t).2) _ _ s⟩

theorem faulty_stepS_frame (f : K8sCall → Option K8sError)
    (p : DeployParams) (s : KStore) :
    (stepS (faultyModel f) p s).1.deployments = s.deployments
    ∧ (stepS (faultyModel f) p s).1.ingresses = s.ingresses := by
  unfold stepS
  exact ⟨troc_preserves (fun t : KStore => t.deployments) _ _
      (fun t => (faulty_replaceService_frame f p.app_name (mkService p) t).1)
      (fun t => (faulty_createService_frame f (mkService p) t).1) _ _ s,
    troc_preserves (fun t : KStore => t.ingresses) _ _
      (fun t => (faulty_replaceService_frame f p.app_name (mkService p) t).2)
      (fun t => (faulty_createService_frame f (mkService p) t).2) _ _ s⟩

theorem faulty_stepI_frame (f : K8sCall → Option K8sError)
    (p : DeployParams) (s : KStore) :
    (stepI (faultyModel f) p s).1.deployments = s.deployments
    ∧ (stepI (faultyModel f) p s).1.services = s.services := by
  unfold stepI
  exact ⟨troc_preserves (fun t : KStore => t.deployments) _ _
      (fun t => (faulty_replaceIngress_frame f (p.app_name ++ "-ingress")
        (mkIngress p) t).1)
      (fun t => (faulty_createIngress_frame f (mkIngress p) t).1) _ _ s,
    troc_preserves (fun t : KStore => t.services) _ _
      (fun t => (faulty_replaceIngress_frame f (p.app_name ++ "-ingress")
        (mkIngress p) t).2)
      (fun t => (faulty_createIngress_frame f (mkIngress p) t).2) _ _ s⟩

theorem stepD_trace_all {σ : Type} (M : StoreModel σ) (p : DeployParams)
    (s : σ) : (stepD M p s).2.1.all K8sCall.isDeploymentCall = true := by
  unfold stepD
  rcases troc_trace_shape (M.replaceDeployment p.app_name (mkDeployment p))
      (M.createDeployment (mkDeployment p))
      (.replaceDeployment p.app_name (mkDeployment p))
      (.createDeployment (mkDeployment p)) s with h | h <;> rw [h] <;> rfl

theorem stepS_trace_all {σ : Type} (M : StoreModel σ) (p : DeployParams)
    (s : σ) : (stepS M p s).2.1.all K8sCall.isServiceCall = true := by
  unfold stepS
  rcases troc_trace_shape (M.replaceService p.app_name (mkService p))
      (M.createService (mkService p))
      (.replaceService p.app_name (mkService p))
      (.createService (mkService p)) s with h | h <;> rw [h] <;> rfl

theorem stepI_trace_all {σ : Type} (M : StoreModel σ) (p : DeployParams)
    (s : σ) : (stepI M p s).2.1.all K8sCall.isIngressCall = true := by
  unfold stepI
  rcases troc_trace_shape
      (M.replaceIngress (p.app_name ++ "-ingress") (mkIngress p))
      (M.createIngress (mkIngress p))
      (.replaceIngress (p.app_name ++ "-ingress") (mkIngress p))
      (.createIngress (mkIngress p)) s with h | h <;> rw [h] <;> rfl

/-- C6.  The three-resource convergence (here run against the honest store
with arbitrary injected faults) is strictly sequential in the order
Deployment, Service, Ingress, and has no rollback: a Deployment-step
failure stops everything after it; a Service-step failure leaves the
already-converged Deployment collection untouched and never reaches the
Ingress; and whatever the Ingress step does, the Deployment and Service
collections produced by the earlier steps remain exactly in place. -/
theorem claim6_sequential_no_rollback :
    ∀ (f : K8sCall → Option K8sError) (p : DeployParams) (s : KStore),
      (∃ trD trS trI,
        (createOrUpdateDeployment (faultyModel f) p s).2.1 = trD ++ trS ++ trI
        ∧ trD.all K8sCall.isDeploymentCall = true
        ∧ trS.all K8sCall.isServiceCall = true
        ∧ trI.all K8sCall.isIngressCall = true)
      ∧ (∀ s1 tr1 e, stepD (faultyModel f) p s = (s1, tr1, some e) →
          createOrUpdateDeployment (faultyModel f) p s = (s1, tr1, some e)
          ∧ tr1.all K8sCall.isDeploymentCall = true)
      ∧ (∀ s1 tr1 s2 tr2 e,
          stepD (faultyModel f) p s = (s1, tr1, none) →
          stepS (faultyModel f) p s1 = (s2, tr2, some e) →
          createOrUpdateDeployment (faultyModel f) p s = (s2, tr1 ++ tr2, some e)
          ∧ s2.deployments = s1.deployments
          ∧ tr2.all K8sCall.isServiceCall = true)
      ∧ (∀ s1 tr1 s2 tr2,
          stepD (faultyModel f) p s = (s1, tr1, none) →
          stepS (faultyModel f) p s1 = (s2, tr2, none) →
          (createOrUpdateDeployment (faultyModel f) p s).1.deployments
              = s2.deployments
          ∧ s2.deployments = s1.deployments
          ∧ (createOrUpdateDeployment (faultyModel f) p s).1.services
              = s2.services) := by
  intro f p s
  refine ⟨?_, ?_, ?_, ?_⟩
  · rcases hD : stepD (faultyModel f) p s with ⟨s1, tr1, r1⟩
    have htrD := stepD_trace_all (faultyModel f) p s
    rw [hD] at htrD
    cases r1 with
    | some e =>
      exact ⟨tr1, [], [], by rw [cou_step1_err hD]; simp, htrD, rfl, rfl⟩
    | none =>
      rcases hS : stepS (faultyModel f) p s1 with ⟨s2, tr2, r2⟩
      have htrS := stepS_trace_all (faultyModel f) p s1
      rw [hS] at htrS
      cases r2 with
      | some e =>
        exact ⟨tr1, tr2, [], by rw [cou_step2_err hD hS]; simp, htrD, htrS, rfl⟩
      | none =>
        rcases hI : stepI (faultyModel f) p s2 with ⟨s3, tr3, r3⟩
        have htrI := stepI_trace_all (faultyModel f) p s2
        rw [hI] at htrI
        exact ⟨tr1, tr2, tr3, by rw [cou_step3 hD hS hI], htrD, htrS, htrI⟩
  · intro s1 tr1 e hD
    have htrD := stepD_trace_all (faultyModel f) p s
    rw [hD] at htrD
    exact ⟨cou_step1_err hD, htrD⟩
  · intro s1 tr1 s2 tr2 e hD hS
    have htrS := stepS_trace_all (faultyModel f) p s1
    rw [hS] at htrS
    have hfr := (faulty_stepS_frame f p s1).1
    rw [hS] at hfr
    exact ⟨cou_step2_err hD hS, hfr, htrS⟩
  · intro s1 tr1 s2 tr2 hD hS
    rcases hI : stepI (faultyModel f) p s2 with ⟨s3, tr3, r3⟩
    have hcou := cou_step3 hD hS hI
    have hfrS := (faulty_stepS_frame f p s1).1
    rw [hS] at hfrS
    have hfrI := faulty_stepI_frame f p s2
    rw [hI] at hfrI
    rw [hcou]
    exact ⟨hfrI.1, hfrS, hfrI.2⟩

/-- Witness for C6: with a fault injected on the Service calls, converging
`demo` against the empty store converges the Deployment (replace rejected
with 404, then create), fails on the Service replace with the injected 500,
propagates it, never touches the Ingress, and leaves the converged
Deployment in place. -/
theorem claim6_witness :
    createOrUpdateDeployment
        (faultyModel (fun c => if c.isServiceCall
          then some ⟨500, "boom"⟩ else none))
        demoParams emptyStore =
      ((⟨[("demo", mkDeployment demoParams)], [], []⟩ : KStore),
       [K8sCall.replaceDeployment "demo" (mkDeployment demoParams),
        K8sCall.createDeployment (mkDeployment demoParams)] ++
         [K8sCall.replaceService "demo" (mkService demoParams)],
       some ⟨500, "boom"⟩)
    ∧ (⟨[("demo", mkDeployment demoParams)], [], []⟩ : KStore).deployments =
        (⟨[("demo", mkDeployment demoParams)], [], []⟩ : KStore).deployments
    ∧ [K8sCall.replaceService "demo" (mkService demoParams)].all
        K8sCall.isServiceCall = true :=
  (claim6_sequential_no_rollback
      (fun c => if c.isServiceCall then some ⟨500, "boom"⟩ else none)
      demoParams emptyStore).2.2.1
    ⟨[("demo", mkDeployment demoParams)], [], []⟩
    [K8sCall.replaceDeployment "demo" (mkDeployment demoParams),
     K8sCall.createDeployment (mkDeployment demoParams)]
    ⟨[("demo", mkDeployment demoParams)], [], []⟩
    [K8sCall.replaceService "demo" (mkService demoParams)]
    ⟨500, "boom"⟩ rfl rfl

end DeployService
